import Mathlib

/-!
Verification of the meeting conflict-detection and reminder-scheduling engine
of the email-assistant repository, as a shallow embedding in Lean 4.

Modelling conventions:
* Instants (Python timezone-aware `datetime` values, always normalized to UTC
  by the code before storage or comparison) are embedded as `Int` seconds.
  `timedelta(minutes=30)` is 1800, `timedelta(minutes=15)` is 900,
  `timedelta(hours=k)` is `3600 * k`.
* The SQLite `meetings` table is embedded as a `List Meeting` in row order;
  a `session.query(...).filter(...)` without `order_by` is a `List.filter`,
  and `Column.between(lo, hi)` is the inclusive `lo ≤ v ∧ v ≤ hi` as in SQL.
* `random.randint(1, 24)` draws are supplied as an explicit stream
  (`draws : List Int`); the real generator yields values in `[1, 24]`, which
  theorems needing that fact take as a hypothesis.
* The APScheduler job registry is embedded as a `List Job`;
  `scheduler.add_job` with an explicit job id and the default `replace_existing`
  rejects a duplicate id with `ConflictingIdError`, embedded as `Except.error`.
* Python exceptions (`ValueError` from `datetime.fromisoformat`, `KeyError`
  from a missing dict field, `ConflictingIdError`) are `Except.error`;
  an uncaught exception propagates through `Except` chaining.
* The external LLM extraction result (`extract_meeting_info`) is an input:
  `Option RawExtraction`, where `none` covers both the genuine "no meeting"
  answer and the JSON-decode failures that `extract_meeting_info` itself
  catches and converts to `None`. `datetime.fromisoformat` is passed in as
  `fromiso : String → Option Int` (`none` = raises `ValueError`).
-/

namespace EmailAssistant

/-- One row of the `meetings` table (`MeetingModel` in `database.py`):
id, email_id, title, datetime, attendees, location, description. -/
structure Meeting where
  id : String
  email_id : String
  title : String
  datetime : Int
  attendees : List String
  location : Option String
  description : Option String
deriving DecidableEq

/-- `session.query(MeetingModel).filter(MeetingModel.datetime.between(lo, hi))`:
SQL BETWEEN is inclusive at both ends. -/
def query_between (db : List Meeting) (lo hi : Int) : List Meeting :=
  db.filter (fun m => decide (lo ≤ m.datetime ∧ m.datetime ≤ hi))

/-- `MeetingDetector.check_conflicts` (meeting_detector.py lines 49-63):
window `[meeting_time - 30m, meeting_time + 30m]`, queried with BETWEEN. -/
def check_conflicts (db : List Meeting) (meeting_time : Int) : List Meeting :=
  let start_window := meeting_time - 1800
  let end_window := meeting_time + 1800
  query_between db start_window end_window

/-- `check_conflicts` together with the store state after the call: the
session only issues a SELECT, so the store is returned unchanged. -/
def check_conflicts_session (db : List Meeting) (meeting_time : Int) :
    List Meeting × List Meeting :=
  (check_conflicts db meeting_time, db)

/-- The inner conflict test of `generate_alternative_times`
(meeting_detector.py line 90): strict on both sides,
`alternative_time > ct - 30m and alternative_time < ct + 30m`. -/
def conflict_window_hit (conflict_times : List Int) (alt : Int) : Bool :=
  conflict_times.any (fun ct => decide (ct - 1800 < alt ∧ alt < ct + 1800))

/-- The duplicate-booking query of `generate_alternative_times`
(meeting_detector.py lines 95-98): all stored meetings starting exactly
at `t`. -/
def meetings_at (db : List Meeting) (t : Int) : List Meeting :=
  db.filter (fun m => decide (m.datetime = t))

/-- The `while len(alternative_times) < 3 and attempts < 10` loop of
`generate_alternative_times` (meeting_detector.py lines 73-101), with the
random draws made explicit. Each iteration consumes one draw `r` and
considers `meeting_time + 3600 * r`. -/
def gen_alt_loop (db : List Meeting) (meeting_time : Int)
    (conflict_times : List Int) :
    List Int → Nat → List Int → List Int
  | [], _, alternative_times => alternative_times
  | r :: rs, attempts, alternative_times =>
    if alternative_times.length < 3 ∧ attempts < 10 then
      let alternative_time := meeting_time + 3600 * r
      if conflict_window_hit conflict_times alternative_time then
        gen_alt_loop db meeting_time conflict_times rs (attempts + 1)
          alternative_times
      else if (meetings_at db alternative_time).isEmpty then
        gen_alt_loop db meeting_time conflict_times rs (attempts + 1)
          (alternative_times ++ [alternative_time])
      else
        gen_alt_loop db meeting_time conflict_times rs (attempts + 1)
          alternative_times
    else alternative_times

/-- `MeetingDetector.generate_alternative_times` (meeting_detector.py lines
65-102). Conflicts arrive as already-normalized records, so the per-iteration
string/naive normalization of `conflict_times` reduces to taking each
conflict datetime. The returned instants are kept as `Int` (the Python
code renders them with `isoformat`, a presentation step). -/
def generate_alternative_times (db : List Meeting) (meeting_time : Int)
    (conflicts : List Meeting) (draws : List Int) : List Int :=
  gen_alt_loop db meeting_time (conflicts.map Meeting.datetime) draws 0 []

/-- One armed APScheduler job, as registered by `scheduler.add_job` with a
date trigger, a run date, a payload argument and an explicit job id: the
payload is the meeting snapshot captured at arming time. -/
structure Job where
  id : String
  run_date : Int
  payload : Meeting
deriving DecidableEq

/-- APScheduler `add_job` with an explicit id and the default
`replace_existing=False`: a job whose id is already present is rejected
with `ConflictingIdError`; otherwise the job is appended to the registry. -/
def add_job (sched : List Job) (j : Job) : Except String (List Job) :=
  if sched.any (fun j0 => j0.id == j.id) then
    Except.error "ConflictingIdError"
  else
    Except.ok (sched ++ [j])

/-- `reminder_time = meeting_time - timedelta(minutes=15)`
(notification_system.py line 32). -/
def reminder_time_of (meeting_time : Int) : Int := meeting_time - 900

/-- The job built by `schedule_meeting_reminder` for a meeting: id
`reminder_<meeting-id>`, firing 15 minutes before the start, payload the
meeting snapshot. -/
def reminder_job (m : Meeting) : Job :=
  { id := "reminder_" ++ m.id
    run_date := reminder_time_of m.datetime
    payload := m }

/-- `NotificationSystem.schedule_meeting_reminder` (notification_system.py
lines 22-42): computes `reminder_time = start - 15m` and calls `add_job`
only when `reminder_time > now`; otherwise it returns without touching the
registry. It performs no cancellation of an existing job. -/
def schedule_meeting_reminder (sched : List Job) (now : Int) (m : Meeting) :
    Except String (List Job) :=
  let reminder_time := reminder_time_of m.datetime
  if now < reminder_time then add_job sched (reminder_job m)
  else Except.ok sched

/-- One `asyncio.create_task(self.schedule_meeting_reminder(...))` of
`schedule_all_reminders`: the task runs in isolation, so an exception
inside it (for example `ConflictingIdError`) does not abort the remaining
tasks; it leaves the registry as it was. -/
def arm_task (now : Int) (sched : List Job) (m : Meeting) : List Job :=
  match schedule_meeting_reminder sched now m with
  | Except.ok sched2 => sched2
  | Except.error _ => sched

/-- `NotificationSystem.schedule_all_reminders` (notification_system.py
lines 76-100): queries `MeetingModel.datetime > now` (strict) and spawns
one `schedule_meeting_reminder` task per returned meeting. -/
def schedule_all_reminders (db : List Meeting) (sched : List Job)
    (now : Int) : List Job :=
  (db.filter (fun m => decide (now < m.datetime))).foldl (arm_task now) sched

/-- The loosely structured result handed back by the external
`extract_meeting_info` call: each field of the JSON dict may be absent.
`datetime_text` is the raw datetime string of the extraction dict. -/
structure RawExtraction where
  title : Option String
  datetime_text : Option String
  location : Option String
  description : Option String
  attendees : Option (List String)
deriving DecidableEq

/-- `MeetingDetector.detect_meeting` (meeting_detector.py lines 14-47).
`raw = none` models both the genuine "no meeting" answer and the
JSON-decode failures caught inside `extract_meeting_info`. On a present
result the code runs, in order: `datetime.fromisoformat` on the raw
datetime string (a missing field is a `KeyError`, an unparseable string a
`ValueError` — neither is caught), then builds and commits the
`MeetingModel` row (missing title or attendees is a `KeyError`). On
success the new meeting is appended to the store and returned. -/
def detect_meeting (fromiso : String → Option Int) (db : List Meeting)
    (new_id : String) (email_id : String) (raw : Option RawExtraction) :
    Except String (Option Meeting × List Meeting) :=
  match raw with
  | none => Except.ok (none, db)
  | some info =>
    match info.datetime_text with
    | none => Except.error "KeyError: datetime"
    | some s =>
      match fromiso s with
      | none => Except.error "ValueError: Invalid isoformat string"
      | some t =>
        match info.title, info.attendees with
        | some title, some attendees =>
          let m : Meeting :=
            { id := new_id
              email_id := email_id
              title := title
              datetime := t
              attendees := attendees
              location := info.location
              description := info.description }
          Except.ok (some m, db ++ [m])
        | none, _ => Except.error "KeyError: title"
        | some _, none => Except.error "KeyError: attendees"

/-- Which notification path `process_email` takes for one inbound message:
no meeting detected; meeting detected and no conflicts reported (no
conflict notification); or meeting detected with `notify_meeting_conflict`
emitted, carrying the conflicts and suggested alternatives. -/
inductive Outcome where
  | no_meeting
  | scheduled (m : Meeting)
  | conflict_notified (m : Meeting) (conflicts : List Meeting)
      (suggestions : List Int)
deriving DecidableEq

/-- `EmailAgent.process_email` (agent.py lines 90-129), meeting path only
(the email save and LLM classification do not touch the meeting store or
the scheduler registry). Order as in the code: `detect_meeting` (which
persists the meeting), then `schedule_meeting_reminder`, then
`check_conflicts` on the start of the new meeting, and on a non-empty conflict
list `generate_alternative_times` followed by `notify_meeting_conflict`.
Returns the outcome with the final store and registry; an uncaught
exception anywhere propagates as `Except.error`. -/
def process_email (fromiso : String → Option Int) (db : List Meeting)
    (sched : List Job) (now : Int) (email_id : String)
    (raw : Option RawExtraction) (new_id : String) (draws : List Int) :
    Except String (Outcome × List Meeting × List Job) :=
  match detect_meeting fromiso db new_id email_id raw with
  | Except.error e => Except.error e
  | Except.ok (none, db2) => Except.ok (Outcome.no_meeting, db2, sched)
  | Except.ok (some m, db2) =>
    match schedule_meeting_reminder sched now m with
    | Except.error e => Except.error e
    | Except.ok sched2 =>
      let conflicts := check_conflicts db2 m.datetime
      if conflicts.isEmpty then
        Except.ok (Outcome.scheduled m, db2, sched2)
      else
        let suggestions := generate_alternative_times db2 m.datetime conflicts draws
        Except.ok (Outcome.conflict_notified m conflicts suggestions, db2, sched2)

/-- Sample meeting used in concrete witnesses and counterexamples. -/
def mA : Meeting :=
  { id := "m1", email_id := "e1", title := "Team sync", datetime := 100000,
    attendees := [], location := none, description := none }

/-- Sample meeting with start instant 50000, used as a stored conflict. -/
def mB : Meeting :=
  { id := "m2", email_id := "e2", title := "Design review", datetime := 50000,
    attendees := [], location := none, description := none }

/-- Sample meeting starting 600 seconds after instant 0: strictly in the
future, but less than 15 minutes away. -/
def soonMeeting : Meeting :=
  { id := "m3", email_id := "e3", title := "Soon", datetime := 600,
    attendees := [], location := none, description := none }

/-- Five meetings with fire instants strictly in the future of instant 0 and
two meetings in the past, for the bulk re-arming scenario. -/
def sampleMeetings : List Meeting :=
  [ { id := "s1", email_id := "e1", title := "A", datetime := 10000,
      attendees := [], location := none, description := none },
    { id := "s2", email_id := "e2", title := "B", datetime := 20000,
      attendees := [], location := none, description := none },
    { id := "s3", email_id := "e3", title := "C", datetime := 30000,
      attendees := [], location := none, description := none },
    { id := "s4", email_id := "e4", title := "D", datetime := 40000,
      attendees := [], location := none, description := none },
    { id := "s5", email_id := "e5", title := "E", datetime := 50000,
      attendees := [], location := none, description := none },
    { id := "s6", email_id := "e6", title := "F", datetime := -100,
      attendees := [], location := none, description := none },
    { id := "s7", email_id := "e7", title := "G", datetime := -5000,
      attendees := [], location := none, description := none } ]

/-- An extraction result whose datetime text no ISO parser accepts. -/
def rawBad : RawExtraction :=
  { title := some "Standup", datetime_text := some "tomorrow at noonish",
    location := none, description := none, attendees := some [] }

/-- An extraction result with no datetime field at all. -/
def rawNoDatetime : RawExtraction :=
  { title := some "Standup", datetime_text := none,
    location := none, description := none, attendees := some [] }

/-- An extraction result with a parseable datetime text but no title
field. -/
def rawNoTitle : RawExtraction :=
  { title := none, datetime_text := some "2025-06-01T14:00:00Z",
    location := none, description := none, attendees := some [] }

/-- An extraction result with a parseable datetime text and a title but no
attendees field. -/
def rawNoAttendees : RawExtraction :=
  { title := some "Standup", datetime_text := some "2025-06-01T14:00:00Z",
    location := none, description := none, attendees := none }

/-- The meeting record produced for end-to-end scenario A of the spec:
message "Team sync at 2025-06-01T14:00:00Z" (1748786400 in epoch seconds)
against an empty store. -/
def teamSync : Meeting :=
  { id := "m1", email_id := "e1", title := "Team sync",
    datetime := 1748786400, attendees := [], location := none,
    description := none }

/-- The extraction result of scenario A. -/
def rawTeamSync : RawExtraction :=
  { title := some "Team sync", datetime_text := some "2025-06-01T14:00:00Z",
    location := none, description := none, attendees := some [] }

/-- The ISO parser as it behaves on the scenario A input. -/
def fromisoA : String → Option Int :=
  fun s => if s = "2025-06-01T14:00:00Z" then some 1748786400 else none

/-- One-step unfolding of the search loop on a non-empty draw stream. -/
theorem gen_alt_loop_cons (db : List Meeting) (t : Int) (cts : List Int)
    (r : Int) (rs : List Int) (attempts : Nat) (alts : List Int) :
    gen_alt_loop db t cts (r :: rs) attempts alts =
      if alts.length < 3 ∧ attempts < 10 then
        if conflict_window_hit cts (t + 3600 * r) then
          gen_alt_loop db t cts rs (attempts + 1) alts
        else if (meetings_at db (t + 3600 * r)).isEmpty then
          gen_alt_loop db t cts rs (attempts + 1) (alts ++ [t + 3600 * r])
        else
          gen_alt_loop db t cts rs (attempts + 1) alts
      else alts := rfl

/-- Only the first `10 - attempts` draws of the stream can influence the
search loop. -/
theorem gen_alt_loop_take (db : List Meeting) (t : Int) (cts : List Int) :
    ∀ (draws : List Int) (attempts : Nat) (alts : List Int),
      gen_alt_loop db t cts draws attempts alts
        = gen_alt_loop db t cts (draws.take (10 - attempts)) attempts alts := by
  intro draws
  induction draws with
  | nil => intro attempts alts; rw [List.take_nil]
  | cons r rs ih =>
    intro attempts alts
    by_cases h10 : attempts < 10
    · rw [show 10 - attempts = (10 - (attempts + 1)) + 1 from by omega,
        List.take_succ_cons, gen_alt_loop_cons, gen_alt_loop_cons]
      by_cases h3 : alts.length < 3
      · rw [if_pos (And.intro h3 h10), if_pos (And.intro h3 h10)]
        by_cases hhit : conflict_window_hit cts (t + 3600 * r) = true
        · rw [if_pos hhit, if_pos hhit]; exact ih _ _
        · rw [if_neg hhit, if_neg hhit]
          by_cases hemp : (meetings_at db (t + 3600 * r)).isEmpty = true
          · rw [if_pos hemp, if_pos hemp]; exact ih _ _
          · rw [if_neg hemp, if_neg hemp]; exact ih _ _
      · rw [if_neg (fun hc => h3 hc.1), if_neg (fun hc => h3 hc.1)]
    · rw [show 10 - attempts = 0 from by omega, List.take_zero,
        gen_alt_loop_cons, if_neg (fun hc => h10 hc.2)]
      rfl

/-- The search loop never grows the accumulator past three entries. -/
theorem gen_alt_loop_length (db : List Meeting) (t : Int) (cts : List Int) :
    ∀ (draws : List Int) (attempts : Nat) (alts : List Int),
      alts.length ≤ 3 → (gen_alt_loop db t cts draws attempts alts).length ≤ 3 := by
  intro draws
  induction draws with
  | nil => intro _ alts h; exact h
  | cons r rs ih =>
    intro attempts alts h
    rw [gen_alt_loop_cons]
    by_cases hg : alts.length < 3 ∧ attempts < 10
    · rw [if_pos hg]
      by_cases hhit : conflict_window_hit cts (t + 3600 * r) = true
      · rw [if_pos hhit]; exact ih _ _ h
      · rw [if_neg hhit]
        by_cases hemp : (meetings_at db (t + 3600 * r)).isEmpty = true
        · rw [if_pos hemp]
          refine ih _ _ ?_
          rw [List.length_append, List.length_singleton]
          omega
        · rw [if_neg hemp]; exact ih _ _ h
    · rw [if_neg hg]; exact h

/-- Every element produced by the search loop was either already in the
accumulator or is `t + 3600 * r` for some consumed draw `r` that passed
both the strict conflict-window test and the duplicate-booking query. -/
theorem gen_alt_loop_mem (db : List Meeting) (t : Int) (cts : List Int) :
    ∀ (draws : List Int) (attempts : Nat) (alts : List Int) (x : Int),
      x ∈ gen_alt_loop db t cts draws attempts alts →
      x ∈ alts ∨ ∃ r, r ∈ draws ∧ x = t + 3600 * r ∧
        conflict_window_hit cts (t + 3600 * r) = false ∧
        (meetings_at db (t + 3600 * r)).isEmpty = true := by
  intro draws
  induction draws with
  | nil => intro _ alts x hx; exact Or.inl hx
  | cons r rs ih =>
    intro attempts alts x hx
    rw [gen_alt_loop_cons] at hx
    by_cases hg : alts.length < 3 ∧ attempts < 10
    · rw [if_pos hg] at hx
      by_cases hhit : conflict_window_hit cts (t + 3600 * r) = true
      · rw [if_pos hhit] at hx
        rcases ih _ _ _ hx with h | ⟨r2, hr2, rest⟩
        · exact Or.inl h
        · exact Or.inr ⟨r2, List.mem_cons_of_mem _ hr2, rest⟩
      · rw [if_neg hhit] at hx
        by_cases hemp : (meetings_at db (t + 3600 * r)).isEmpty = true
        · rw [if_pos hemp] at hx
          rcases ih _ _ _ hx with h | ⟨r2, hr2, rest⟩
          · rcases List.mem_append.mp h with h2 | h2
            · exact Or.inl h2
            · refine Or.inr ⟨r, List.mem_cons_self r rs, by simpa using h2, ?_, hemp⟩
              exact Bool.eq_false_iff.mpr hhit
          · exact Or.inr ⟨r2, List.mem_cons_of_mem _ hr2, rest⟩
        · rw [if_neg hemp] at hx
          rcases ih _ _ _ hx with h | ⟨r2, hr2, rest⟩
          · exact Or.inl h
          · exact Or.inr ⟨r2, List.mem_cons_of_mem _ hr2, rest⟩
    · rw [if_neg hg] at hx
      exact Or.inl hx

/-- C2: for every timezone-aware candidate instant `x` and every meeting
collection, `check_conflicts` returns exactly the meetings `M` whose start
`t` satisfies `t - 30m ≤ x ≤ t + 30m` (both boundaries inclusive, since SQL
BETWEEN is inclusive and the condition is symmetric in `x` and `t`), in the
order supplied by the source collection, and the session leaves the meeting
store unchanged. -/
theorem c2_check_conflicts_exact_window :
    ∀ (db : List Meeting) (x : Int),
      check_conflicts db x
        = db.filter (fun m =>
            decide (m.datetime - 1800 ≤ x ∧ x ≤ m.datetime + 1800)) ∧
      (check_conflicts db x).Sublist db ∧
      (check_conflicts_session db x).2 = db ∧
      ∀ m : Meeting, m ∈ check_conflicts db x ↔
        m ∈ db ∧ m.datetime - 1800 ≤ x ∧ x ≤ m.datetime + 1800 := by
  intro db x
  refine ⟨?_, ?_, rfl, ?_⟩
  · unfold check_conflicts query_between
    refine List.filter_congr ?_
    intro m _
    exact decide_eq_decide.mpr (by omega)
  · unfold check_conflicts query_between
    exact List.filter_sublist db
  · intro m
    unfold check_conflicts query_between
    simp only [List.mem_filter, decide_eq_true_eq]
    constructor
    · rintro ⟨h1, h2⟩; exact ⟨h1, by omega, by omega⟩
    · rintro ⟨h1, h2, h3⟩; exact ⟨h1, by omega, by omega⟩

/-- C5: `schedule_meeting_reminder` computes the fire instant as the meeting
start minus 15 minutes; when that instant is less than or equal to the
current time the call is a silent no-op that leaves the registry unchanged,
and a timer is registered (via `add_job`) exactly when the fire instant is
strictly in the future. -/
theorem c5_past_due_silent_no_op :
    ∀ (sched : List Job) (now : Int) (m : Meeting),
      (reminder_job m).run_date = m.datetime - 900 ∧
      (reminder_time_of m.datetime ≤ now →
        schedule_meeting_reminder sched now m = Except.ok sched) ∧
      (now < reminder_time_of m.datetime →
        schedule_meeting_reminder sched now m = add_job sched (reminder_job m)) := by
  intro sched now m
  refine ⟨rfl, ?_, ?_⟩
  · intro h
    unfold schedule_meeting_reminder
    rw [if_neg (not_lt.mpr h)]
  · intro h
    unfold schedule_meeting_reminder
    rw [if_pos h]

/-- Witness for C5: a meeting whose fire instant 99100 is already past at
time 200000 is silently dropped, and one whose fire instant is still ahead
at time 0 is handed to `add_job`. -/
theorem c5_witness :
    schedule_meeting_reminder [] 200000 mA = Except.ok [] ∧
    schedule_meeting_reminder [] 0 mA = add_job [] (reminder_job mA) :=
  ⟨(c5_past_due_silent_no_op [] 200000 mA).2.1 (by decide),
   (c5_past_due_silent_no_op [] 0 mA).2.2 (by decide)⟩

/-- Counterexample to C4: arming the same meeting twice in succession does
not cancel-and-replace; the second call raises `ConflictingIdError` because
`schedule_meeting_reminder` never cancels the job registered by the first
call. -/
theorem c4_counterexample_rearm_raises :
    schedule_meeting_reminder [] 0 mA = Except.ok [reminder_job mA] ∧
    schedule_meeting_reminder [reminder_job mA] 0 mA
      = Except.error "ConflictingIdError" :=
  ⟨rfl, rfl⟩

/-- C4 as amended: `schedule_meeting_reminder` performs no cancellation, so
whenever a live job with the derived id `reminder_<meeting-id>` is already
registered and the fire instant is still in the future, a second arm for the
same meeting id fails with `ConflictingIdError` (the registry keeps the
first job unchanged; re-arming is not idempotent). -/
theorem c4_rearm_conflicting_id_error :
    ∀ (sched : List Job) (now : Int) (m : Meeting),
      now < reminder_time_of m.datetime →
      sched.any (fun j => j.id == "reminder_" ++ m.id) = true →
      schedule_meeting_reminder sched now m
        = Except.error "ConflictingIdError" := by
  intro sched now m h1 h2
  unfold schedule_meeting_reminder
  rw [if_pos h1]
  simp only [add_job, reminder_job]
  rw [if_pos h2]

/-- Witness for C4 as amended: with the reminder job of `mA` already live,
arming `mA` again at time 0 raises `ConflictingIdError`. -/
theorem c4_witness :
    schedule_meeting_reminder [reminder_job mA] 0 mA
      = Except.error "ConflictingIdError" :=
  c4_rearm_conflicting_id_error [reminder_job mA] 0 mA (by decide) (by decide)

/-- C9: the two checkers treat the 30-minute boundary differently: an
instant exactly 30 minutes before or after a conflicting meeting start
passes the strict window test of `generate_alternative_times` (no conflict
reported), while `check_conflicts` on that same instant reports the meeting
as a conflict. -/
theorem c9_boundary_asymmetry :
    ∀ (m : Meeting) (x : Int),
      (x = m.datetime - 1800 ∨ x = m.datetime + 1800) →
      conflict_window_hit [m.datetime] x = false ∧
      m ∈ check_conflicts [m] x := by
  intro m x h
  constructor
  · unfold conflict_window_hit
    simp only [List.any_cons, List.any_nil, Bool.or_false]
    exact decide_eq_false (by rcases h with h | h <;> omega)
  · unfold check_conflicts query_between
    rw [List.mem_filter]
    exact ⟨List.mem_singleton_self m,
      decide_eq_true (by rcases h with h | h <;> omega)⟩

/-- Witness for C9: the instant exactly 30 minutes before the start of `mA`
is no conflict for the alternative-time search, yet `check_conflicts`
reports `mA` as a conflict there. -/
theorem c9_witness :
    conflict_window_hit [mA.datetime] (mA.datetime - 1800) = false ∧
    mA ∈ check_conflicts [mA] (mA.datetime - 1800) :=
  c9_boundary_asymmetry mA (mA.datetime - 1800) (Or.inl rfl)

/-- C6: `generate_alternative_times` consumes at most ten random draws
(draws beyond the first ten never influence the result), stops as soon as
three accepted candidates are found, and always returns a list of at most
three instants; fewer than three, including none, is a normal outcome. -/
theorem c6_bounded_search :
    ∀ (db : List Meeting) (t : Int) (conflicts : List Meeting)
      (draws : List Int),
      (generate_alternative_times db t conflicts draws).length ≤ 3 ∧
      generate_alternative_times db t conflicts draws
        = generate_alternative_times db t conflicts (draws.take 10) := by
  intro db t conflicts draws
  constructor
  · exact gen_alt_loop_length db t _ draws 0 [] (by simp)
  · unfold generate_alternative_times
    simpa using gen_alt_loop_take db t (conflicts.map Meeting.datetime) draws 0 []

/-- C3: every instant returned by `generate_alternative_times` fails the
strict 30-minute window test of every supplied conflict (it is at or before
`start - 30m`, or at or after `start + 30m`) and is not the exact start
instant of any meeting in the store at proposal time; the duplicate-booking
guard applies also when the supplied conflict set is empty. -/
theorem c3_alternatives_respect_conflicts_and_store :
    ∀ (db : List Meeting) (t : Int) (conflicts : List Meeting)
      (draws : List Int) (x : Int),
      x ∈ generate_alternative_times db t conflicts draws →
      (∀ c ∈ conflicts, x ≤ c.datetime - 1800 ∨ c.datetime + 1800 ≤ x) ∧
      (∀ m ∈ db, m.datetime ≠ x) := by
  intro db t conflicts draws x hx
  rcases gen_alt_loop_mem db t _ draws 0 [] x hx with h | ⟨r, _, hxr, hhit, hemp⟩
  · simp at h
  · rw [← hxr] at hhit hemp
    constructor
    · intro c hc
      have hnot : ¬ (c.datetime - 1800 < x ∧ x < c.datetime + 1800) := by
        intro hcon
        have htrue : conflict_window_hit (conflicts.map Meeting.datetime) x = true := by
          unfold conflict_window_hit
          rw [List.any_eq_true]
          exact ⟨c.datetime, List.mem_map_of_mem _ hc, decide_eq_true hcon⟩
        rw [hhit] at htrue
        exact Bool.false_ne_true htrue
      omega
    · intro m hm heq
      have hnil : db.filter (fun m2 => decide (m2.datetime = x)) = [] := by
        have := hemp
        unfold meetings_at at this
        exact List.isEmpty_iff.mp this
      exact List.filter_eq_nil_iff.mp hnil m hm (decide_eq_true heq)

/-- Witness for C3: with the store holding `mB` (start 50000) and `mB`
supplied as the conflict set, the draw 5 yields the instant 18000, which is
outside the conflict window of `mB` and not a stored start instant. -/
theorem c3_witness :
    ((18000 : Int) ∈ generate_alternative_times [mB] 0 [mB] [5]) ∧
    ((∀ c ∈ [mB], (18000 : Int) ≤ c.datetime - 1800 ∨ c.datetime + 1800 ≤ (18000 : Int)) ∧
     (∀ m ∈ [mB], m.datetime ≠ (18000 : Int))) :=
  ⟨by decide, c3_alternatives_respect_conflicts_and_store [mB] 0 [mB] [5] 18000 (by decide)⟩

/-- C10: under the `random.randint(1, 24)` contract every returned
alternative differs from the candidate start by a whole number of hours
between 1 and 24 inclusive, hence is strictly later, preserves the residue
modulo one hour (the minute and second of the hour), and lies in a fixed
set of at most 24 possible instants. -/
theorem c10_alternatives_whole_hours :
    ∀ (db : List Meeting) (t : Int) (conflicts : List Meeting)
      (draws : List Int),
      (∀ r ∈ draws, 1 ≤ r ∧ r ≤ 24) →
      ∀ x ∈ generate_alternative_times db t conflicts draws,
        (∃ k : Int, 1 ≤ k ∧ k ≤ 24 ∧ x = t + 3600 * k) ∧
        t < x ∧ x % 3600 = t % 3600 ∧
        x ∈ Finset.image (fun k => t + 3600 * k) (Finset.Icc (1 : Int) 24) ∧
        (Finset.image (fun k => t + 3600 * k) (Finset.Icc (1 : Int) 24)).card ≤ 24 := by
  intro db t conflicts draws hdraws x hx
  rcases gen_alt_loop_mem db t _ draws 0 [] x hx with h | ⟨r, hr, hxr, _, _⟩
  · simp at h
  · obtain ⟨h1, h24⟩ := hdraws r hr
    refine ⟨⟨r, h1, h24, hxr⟩, by omega, ?_, ?_, ?_⟩
    · rw [hxr]; exact Int.add_mul_emod_self_left t 3600 r
    · exact Finset.mem_image.mpr ⟨r, Finset.mem_Icc.mpr ⟨h1, h24⟩, hxr.symm⟩
    · calc (Finset.image (fun k => t + 3600 * k) (Finset.Icc (1 : Int) 24)).card
          ≤ (Finset.Icc (1 : Int) 24).card := Finset.card_image_le
        _ = 24 := by rw [Int.card_Icc]; rfl

/-- Witness for C10: the draw 5 on candidate start 0 yields 18000, which is
5 whole hours later, strictly later, hour-aligned with 0, and one of the 24
possible alternatives. -/
theorem c10_witness :
    (∀ r ∈ [(5 : Int)], 1 ≤ r ∧ r ≤ 24) ∧
    ((∃ k : Int, 1 ≤ k ∧ k ≤ 24 ∧ (18000 : Int) = 0 + 3600 * k) ∧
     (0 : Int) < 18000 ∧ (18000 : Int) % 3600 = (0 : Int) % 3600 ∧
     (18000 : Int) ∈ Finset.image (fun k => (0 : Int) + 3600 * k) (Finset.Icc (1 : Int) 24) ∧
     (Finset.image (fun k => (0 : Int) + 3600 * k) (Finset.Icc (1 : Int) 24)).card ≤ 24) :=
  ⟨by decide, c10_alternatives_whole_hours [] 0 [] [5] (by decide) 18000 (by decide)⟩

/-- Prepending the fixed reminder prefix to distinct meeting ids yields
distinct job ids. -/
theorem reminder_prefix_inj (a b : String) :
    "reminder_" ++ a = "reminder_" ++ b → a = b := by
  intro h
  have h2 := congrArg String.data h
  simp only [String.data_append] at h2
  exact String.ext (List.append_cancel_left h2)

/-- Folding the per-meeting arming task over a meeting list with fresh,
pairwise-distinct derived job ids appends exactly the reminder jobs of the
meetings whose fire instant is strictly in the future. -/
theorem foldl_arm_task (now : Int) :
    ∀ (L : List Meeting) (sched : List Job),
      (∀ m ∈ L, ∀ j ∈ sched, j.id ≠ "reminder_" ++ m.id) →
      (L.map (fun m => m.id)).Nodup →
      L.foldl (arm_task now) sched
        = sched ++ (L.filter (fun m =>
            decide (now < reminder_time_of m.datetime))).map reminder_job := by
  intro L
  induction L with
  | nil => intro sched _ _; simp
  | cons m rest ih =>
    intro sched hfresh hnodup
    have hmap : (m.id :: List.map (fun m2 => m2.id) rest).Nodup := by
      simpa only [List.map_cons] using hnodup
    have hn := List.nodup_cons.mp hmap
    rw [List.foldl_cons]
    by_cases hfut : now < reminder_time_of m.datetime
    · have hstep : arm_task now sched m = sched ++ [reminder_job m] := by
        unfold arm_task schedule_meeting_reminder
        rw [if_pos hfut]
        unfold add_job
        rw [if_neg ?hn2]
        case hn2 =>
          intro hany
          rw [List.any_eq_true] at hany
          obtain ⟨j, hj, hjid⟩ := hany
          exact hfresh m (List.mem_cons_self _ _) j hj
            (by simpa [reminder_job] using hjid)
      rw [hstep]
      rw [ih (sched ++ [reminder_job m]) ?fresh2 hn.2]
      · have hfc : List.filter
              (fun m2 => decide (now < reminder_time_of m2.datetime)) (m :: rest)
            = m :: List.filter
              (fun m2 => decide (now < reminder_time_of m2.datetime)) rest := by
          simp [List.filter_cons, hfut]
        rw [hfc, List.map_cons, List.append_assoc, List.singleton_append]
      case fresh2 =>
        intro m2 hm2 j hj
        rcases List.mem_append.mp hj with hj2 | hj2
        · exact hfresh m2 (List.mem_cons_of_mem _ hm2) j hj2
        · have hjr : j = reminder_job m := by simpa using hj2
          subst hjr
          intro heq
          have hid : m.id = m2.id :=
            reminder_prefix_inj m.id m2.id (by simpa [reminder_job] using heq)
          exact hn.1 (hid ▸ List.mem_map_of_mem _ hm2)
    · have hstep : arm_task now sched m = sched := by
        unfold arm_task schedule_meeting_reminder
        rw [if_neg hfut]
      have hfc : List.filter
            (fun m2 => decide (now < reminder_time_of m2.datetime)) (m :: rest)
          = List.filter
            (fun m2 => decide (now < reminder_time_of m2.datetime)) rest := by
        simp [List.filter_cons, hfut]
      rw [hstep,
        ih sched (fun m2 hm2 => hfresh m2 (List.mem_cons_of_mem _ hm2)) hn.2,
        hfc]

/-- Counterexample to C8: a stored meeting starting 600 seconds after the
current instant has a strictly future start, yet `schedule_all_reminders`
arms no job for it, because the inner arm drops any meeting whose fire
instant (start minus 15 minutes) is not strictly in the future. -/
theorem c8_counterexample_near_future_dropped :
    (0 : Int) < soonMeeting.datetime ∧
    schedule_all_reminders [soonMeeting] [] 0 = [] :=
  ⟨by decide, rfl⟩

/-- C8 as amended: starting from an empty registry, `schedule_all_reminders`
arms exactly one job for every stored meeting whose fire instant (start
minus 15 minutes) is strictly in the future at call time, and none for any
other meeting; in particular, with 5 stored meetings more than 15 minutes
ahead and 2 past meetings it arms exactly 5 jobs. -/
theorem c8_rearm_all_arms_future_fire_jobs :
    ∀ (db : List Meeting) (now : Int),
      (db.map (fun m => m.id)).Nodup →
      schedule_all_reminders db [] now
        = (db.filter (fun m =>
            decide (now < reminder_time_of m.datetime))).map reminder_job := by
  intro db now hnodup
  unfold schedule_all_reminders
  rw [foldl_arm_task now _ [] (by intro m _ j hj; simp at hj)
    (hnodup.sublist ((List.filter_sublist db).map _))]
  rw [List.nil_append]
  congr 1
  rw [List.filter_filter]
  refine List.filter_congr ?_
  intro m _
  by_cases h : now < reminder_time_of m.datetime
  · have h2 : now < m.datetime := by
      unfold reminder_time_of at h; omega
    simp [h, h2]
  · simp [h]

/-- Witness for C8 as amended: of the seven sample meetings, the five with
fire instants after time 0 each get a job and the two past ones get none. -/
theorem c8_witness :
    (schedule_all_reminders sampleMeetings [] 0).length = 5 := by
  rw [c8_rearm_all_arms_future_fire_jobs sampleMeetings 0 (by decide)]
  rfl

/-- Counterexample to C7: an extraction result whose datetime text is
unparseable makes `process_email` terminate with an uncaught `ValueError`:
the failure propagates past the orchestrator boundary instead of being
downgraded to a no-meeting outcome. -/
theorem c7_counterexample_unparseable_propagates :
    process_email (fun _ => (none : Option Int)) [] [] 0 "e1" (some rawBad)
      "m1" [] = Except.error "ValueError: Invalid isoformat string" :=
  rfl

/-- C7 as amended: a null extraction result (covering both a genuine
"no meeting" answer and the JSON-decode failures that the extractor itself
catches) degrades to a normal no-meeting outcome with store and registry
untouched; but an extraction result with a missing datetime field, an
unparseable datetime text, a missing title, or a missing attendees field
raises a `KeyError`/`ValueError` out of `detect_meeting` that propagates
uncaught past `process_email`. -/
theorem c7_extraction_failure_boundary :
    ∀ (fromiso : String → Option Int) (db : List Meeting) (sched : List Job)
      (now : Int) (email_id new_id : String) (draws : List Int)
      (info : RawExtraction) (s : String) (t : Int) (tl : String),
      (process_email fromiso db sched now email_id none new_id draws
        = Except.ok (Outcome.no_meeting, db, sched)) ∧
      (info.datetime_text = none →
        process_email fromiso db sched now email_id (some info) new_id draws
          = Except.error "KeyError: datetime") ∧
      (info.datetime_text = some s → fromiso s = none →
        process_email fromiso db sched now email_id (some info) new_id draws
          = Except.error "ValueError: Invalid isoformat string") ∧
      (info.datetime_text = some s → fromiso s = some t → info.title = none →
        process_email fromiso db sched now email_id (some info) new_id draws
          = Except.error "KeyError: title") ∧
      (info.datetime_text = some s → fromiso s = some t →
        info.title = some tl → info.attendees = none →
        process_email fromiso db sched now email_id (some info) new_id draws
          = Except.error "KeyError: attendees") := by
  intro fromiso db sched now email_id new_id draws info s t tl
  refine ⟨rfl, ?_, ?_, ?_, ?_⟩
  · intro h1
    simp only [process_email, detect_meeting, h1]
  · intro h1 h2
    simp only [process_email, detect_meeting, h1, h2]
  · intro h1 h2 h3
    simp only [process_email, detect_meeting, h1, h2, h3]
  · intro h1 h2 h3 h4
    simp only [process_email, detect_meeting, h1, h2, h3, h4]

/-- Witness for C7 as amended: a null extraction yields the no-meeting
outcome, and each of the four malformed samples — missing datetime field,
unparseable datetime text, missing title, missing attendees — makes
`process_email` terminate with the corresponding uncaught error. -/
theorem c7_witness :
    process_email (fun _ => (none : Option Int)) [] [] 0 "e1" none "m1" []
      = Except.ok (Outcome.no_meeting, [], []) ∧
    process_email fromisoA [] [] 0 "e2" (some rawNoDatetime) "m2" []
      = Except.error "KeyError: datetime" ∧
    process_email (fun _ => (none : Option Int)) [] [] 0 "e3" (some rawBad)
      "m3" [] = Except.error "ValueError: Invalid isoformat string" ∧
    process_email fromisoA [] [] 0 "e4" (some rawNoTitle) "m4" []
      = Except.error "KeyError: title" ∧
    process_email fromisoA [] [] 0 "e5" (some rawNoAttendees) "m5" []
      = Except.error "KeyError: attendees" :=
  ⟨(c7_extraction_failure_boundary (fun _ => none) [] [] 0 "e1" "m1" []
      rawBad "x" 0 "T").1,
   (c7_extraction_failure_boundary fromisoA [] [] 0 "e2" "m2" []
      rawNoDatetime "x" 0 "T").2.1 rfl,
   (c7_extraction_failure_boundary (fun _ => none) [] [] 0 "e3" "m3" []
      rawBad "tomorrow at noonish" 0 "T").2.2.1 rfl rfl,
   (c7_extraction_failure_boundary fromisoA [] [] 0 "e4" "m4" []
      rawNoTitle "2025-06-01T14:00:00Z" 1748786400 "T").2.2.2.1 rfl rfl rfl,
   (c7_extraction_failure_boundary fromisoA [] [] 0 "e5" "m5" []
      rawNoAttendees "2025-06-01T14:00:00Z" 1748786400 "Standup").2.2.2.2
     rfl rfl rfl rfl⟩

/-- C1 at the failing input (spec scenario A): the message "Team sync at
2025-06-01T14:00:00Z" processed against an empty meeting store. Because
`detect_meeting` persists the meeting before `process_email` calls
`check_conflicts`, the conflict check runs against a store that already
contains the just-created meeting, whose own start lies inside its own
window: the conflict set is `[teamSync]` rather than empty, and the outcome
is a conflict notification instead of `Scheduled`. The reminder job for
2025-06-01T13:45:00Z (1748785500) is armed, as the claim expects. -/
theorem c1_conflict_check_includes_new_meeting :
    process_email fromisoA [] [] 0 "e1" (some rawTeamSync) "m1" [1, 2, 3]
      = Except.ok
          (Outcome.conflict_notified teamSync [teamSync]
            [1748790000, 1748793600, 1748797200],
           [teamSync], [reminder_job teamSync]) ∧
    check_conflicts [teamSync] teamSync.datetime ≠ [] ∧
    (reminder_job teamSync).run_date = 1748785500 :=
  ⟨rfl, by decide, rfl⟩

end EmailAssistant
